import Mathlib

/-!
Shallow embedding of `src/app.py` (MT5 market-data broadcast server).

Modelling conventions:
* Python `str` values that undergo case transformations (symbols) are
  modelled as `List Nat` of ASCII code points, so that `str.upper()` and
  `str.title()` become pure arithmetic on codes.  Status strings
  ("open"/"closed"/"unknown") and socket ids never change case and are
  modelled as Lean `String`.
* Python dicts (`high_low_cache`, `last_market_update_cache`,
  `client_sessions`) are modelled as `Option`-valued functions.
* MT5 prices (floats in the source) are modelled as `Rat`; the claims only
  copy prices around and compare them, no float arithmetic is involved.
* Feed calls (`mt5.symbol_select`, `mt5.symbol_info`,
  `mt5.symbol_info_tick`, `mt5.copy_rates_range`, `mt5.copy_rates_from`)
  are modelled as fields of an `Env` record returning `Except Unit α`:
  `.error ()` is the call raising a Python exception, `.ok` its value.
  `rates` results are `Option (List Bar)`: `none` for Python `None`,
  `some []`/`some (r :: rs)` for an empty/non-empty bar array
  (`if not rates` is falsy exactly on `none`/`some []`).
* The result of the process-wide session guard `initialize_mt5()` is the
  `Env` field `mt5_ready` (the Python global `mt5_` + `initialized`; the
  name is spelled differently here only for lexical reasons).
-/

/-- Python symbol strings as lists of ASCII code points. -/
abbrev PySym : Type := List Nat

/-- Code points of a Lean string literal, for writing concrete symbols. -/
def pystr (s : String) : PySym := s.toList.map Char.toNat

/-- ASCII model of Python `str.upper()` on one code point. -/
def py_upper_code (n : Nat) : Nat :=
  if 97 ≤ n ∧ n ≤ 122 then n - 32 else n

/-- ASCII model of Python `str.lower()` on one code point. -/
def py_lower_code (n : Nat) : Nat :=
  if 65 ≤ n ∧ n ≤ 90 then n + 32 else n

/-- ASCII letter test (the cased characters of the symbols involved). -/
def is_ascii_alpha (n : Nat) : Bool :=
  (97 ≤ n && n ≤ 122) || (65 ≤ n && n ≤ 90)

/-- Python `str.upper()` on a symbol. -/
def py_upper (s : PySym) : PySym := s.map py_upper_code

/-- Helper for `py_title`: the Boolean records whether the previous
character was a cased (alphabetic) one. -/
def py_title_aux : Bool → List Nat → List Nat
  | _, [] => []
  | prev, c :: cs =>
    (if is_ascii_alpha c then
       (if prev then py_lower_code c else py_upper_code c)
     else c) :: py_title_aux (is_ascii_alpha c) cs

/-- ASCII model of Python `str.title()`. -/
def py_title (s : PySym) : PySym := py_title_aux false s

/-- `SYMBOL_MAP` from app.py: alias -> MT5 canonical code. -/
def SYMBOL_MAP : List (PySym × PySym) :=
  [(pystr "GOLD", pystr "XAUUSD"),
   (pystr "SILVER", pystr "XAGUSD"),
   (pystr "PLATINUM", pystr "XPTUSD")]

/-- `REVERSE_SYMBOL_MAP = {v: k for k, v in SYMBOL_MAP.items()}`. -/
def REVERSE_SYMBOL_MAP : List (PySym × PySym) :=
  SYMBOL_MAP.map (fun p => (p.2, p.1))

/-- `normalize_symbol`: uppercase, then map through `SYMBOL_MAP`
(`SYMBOL_MAP.get(symbol, symbol)` defaults to the uppercased input). -/
def normalize_symbol (s : PySym) : PySym :=
  let u := py_upper s
  (SYMBOL_MAP.lookup u).getD u

/-- The display name built in `update_rates_cache`:
`REVERSE_SYMBOL_MAP.get(mt5_symbol, symbol).title()`.  The spec calls the
one-argument version (fallback = the input itself) `displayName`. -/
def display_name (s : PySym) : PySym :=
  py_title ((REVERSE_SYMBOL_MAP.lookup s).getD s)

/-- `mt5.symbol_info(...).trade_mode` values. -/
inductive TradeMode
  | full
  | disabled
  | closeonly
  | longonly
  | shortonly
deriving DecidableEq

/-- The one field of `mt5.symbol_info(symbol)` the program reads. -/
structure SymbolInfo where
  trade_mode : TradeMode
deriving DecidableEq

/-- The one field of `mt5.symbol_info_tick(symbol)` the program reads. -/
structure Tick where
  bid : Rat
deriving DecidableEq

/-- The fields of a D1 rates bar the program reads
(`rates[0]['high']`, `['low']`, `['close']`). -/
structure Bar where
  high : Rat
  low : Rat
  close : Rat
deriving DecidableEq

/-- An entry of `last_market_update_cache` (the spec's
`LastClosingSnapshot`): `{close, high, low, stored_at}`. -/
structure LastClose where
  close : Rat
  high : Rat
  low : Rat
  stored_at : String
deriving DecidableEq

/-- An entry of `high_low_cache` (the spec's `DailyExtremes`): the source
stores only `{'high': high, 'low': low}` — note there is no date field. -/
structure HighLow where
  high : Rat
  low : Rat
deriving DecidableEq

/-- The `market-data` payload emitted per (connection, symbol):
`{symbol, bid, high, low, marketStatus}` (the spec's OutboundSnapshot). -/
structure MarketData where
  symbol : PySym
  bid : Rat
  high : Rat
  low : Rat
  marketStatus : String
deriving DecidableEq

/-- The quote-feed provider (the `mt5` module) plus ambient process state,
as seen by one broadcast tick.  Each feed call returns `Except Unit α`:
`.error ()` models the call raising a Python exception. -/
structure Env where
  /-- Result of the session guard `initialize_mt5()` (the global
  `mt5_initialized` after the lazy login; the login loop itself is outside
  the claims). -/
  mt5_ready : Bool
  /-- `mt5.symbol_select(symbol, True)`. -/
  symbol_select : PySym → Except Unit Bool
  /-- `mt5.symbol_info(symbol)`; `.ok none` is Python `None`. -/
  symbol_info : PySym → Except Unit (Option SymbolInfo)
  /-- `mt5.symbol_info_tick(symbol)`; `.ok none` is a falsy tick. -/
  symbol_info_tick : PySym → Except Unit (Option Tick)
  /-- `mt5.copy_rates_range(symbol, TIMEFRAME_D1, midnight, now)` —
  today's bars, from local midnight to the current instant. -/
  copy_rates_range_today : PySym → Except Unit (Option (List Bar))
  /-- `mt5.copy_rates_from(symbol, TIMEFRAME_D1, 1, 1)` — the previous
  day's single D1 bar. -/
  copy_rates_from_prev : PySym → Except Unit (Option (List Bar))
  /-- `datetime.now().strftime("%Y-%m-%d %H:%M:%S")`. -/
  now_str : String

/-- The two module-level cache dicts, as `Option`-valued functions. -/
structure Caches where
  high_low_cache : PySym → Option HighLow
  last_market_update_cache : PySym → Option LastClose

/-- `get_market_status(symbol)` from app.py. -/
def get_market_status (env : Env) (symbol : PySym) : Except Unit String :=
  if env.mt5_ready = false then .ok "unknown"
  else
    match env.symbol_info symbol with
    | .error e => .error e
    | .ok none => .ok "unknown"
    | .ok (some info) =>
      match info.trade_mode with
      | .full => .ok "open"
      | .disabled => .ok "closed"
      | _ => .ok "unknown"

/-- `get_high_low(symbol)` from app.py.  The `try/except` catches every
feed exception and yields `(None, None)`; `if not rates` is falsy on
`None` and on an empty bar array; otherwise the first bar's high/low are
written to `high_low_cache` and returned.  The cache is only ever
written here, never read. -/
def get_high_low (env : Env) (st : Caches) (symbol : PySym) :
    Caches × (Option Rat × Option Rat) :=
  match env.copy_rates_range_today symbol with
  | .error _ => (st, (none, none))
  | .ok none => (st, (none, none))
  | .ok (some []) => (st, (none, none))
  | .ok (some (r :: _)) =>
    ({ st with high_low_cache :=
        fun s => if s = symbol then some ⟨r.high, r.low⟩
                 else st.high_low_cache s },
     (some r.high, some r.low))

/-- `store_last_closing_values(symbol)` from app.py: fetch the previous
day's D1 bar; on a non-empty result overwrite
`last_market_update_cache[symbol]`, otherwise only log.  There is no
`try` here, so a raising feed call propagates (`.error`). -/
def store_last_closing_values (env : Env) (st : Caches) (symbol : PySym) :
    Except Unit Caches :=
  match env.copy_rates_from_prev symbol with
  | .error e => .error e
  | .ok none => .ok st
  | .ok (some []) => .ok st
  | .ok (some (r :: _)) =>
    .ok { st with last_market_update_cache :=
        fun s => if s = symbol then
                   some ⟨r.close, r.high, r.low, env.now_str⟩
                 else st.last_market_update_cache s }

/-- Python `x or 0` on an optional price (`None` and `0.0` are falsy). -/
def py_or_zero (x : Option Rat) : Rat :=
  match x with
  | none => 0
  | some v => if v = 0 then 0 else v

/-- The body of the `try` block of `update_rates_cache` for one
(connection, symbol) pair: returns the updated caches and the
`market-data` payload emitted to that connection's room (`none` when the
iteration hits a `continue`).  `.error ()` is an uncaught exception
escaping to the `except` of the loop.  (Every raising feed call in this
body happens before any cache write, so an `.error` result leaves the
caches as they were at loop entry — matching Python, where the partial
writes before a raise are exactly none.) -/
def process_symbol_body (env : Env) (st : Caches) (symbol : PySym) :
    Except Unit (Caches × Option MarketData) :=
  -- The Python locals `mt5_symbol`, `last_data` and the `get_high_low`
  -- result are inlined at their (pure, read-only) use sites.
  match env.symbol_select (normalize_symbol symbol) with
  | .error e => .error e
  | .ok false => .ok (st, none)
  | .ok true =>
    match get_market_status env (normalize_symbol symbol) with
    | .error e => .error e
    | .ok market_status =>
      if market_status = "closed" then
        -- closed market: use last stored values
        match (match st.last_market_update_cache (normalize_symbol symbol) with
               | none => store_last_closing_values env st (normalize_symbol symbol)
               | some _ => .ok st) with
        | .error e => .error e
        | .ok st1 =>
          .ok (st1, some {
            symbol := py_title ((REVERSE_SYMBOL_MAP.lookup
              (normalize_symbol symbol)).getD symbol),
            bid := match st1.last_market_update_cache (normalize_symbol symbol) with
                   | none => 0 | some d => d.close,
            high := match st1.last_market_update_cache (normalize_symbol symbol) with
                    | none => 0 | some d => d.high,
            low := match st1.last_market_update_cache (normalize_symbol symbol) with
                   | none => 0 | some d => d.low,
            marketStatus := market_status })
      else
        -- open (or unknown) market: use live data
        match env.symbol_info_tick (normalize_symbol symbol) with
        | .error e => .error e
        | .ok none => .ok (st, none)
        | .ok (some tick) =>
          .ok ((get_high_low env st (normalize_symbol symbol)).1, some {
            symbol := py_title ((REVERSE_SYMBOL_MAP.lookup
              (normalize_symbol symbol)).getD symbol),
            bid := tick.bid,
            high := py_or_zero (get_high_low env st (normalize_symbol symbol)).2.1,
            low := py_or_zero (get_high_low env st (normalize_symbol symbol)).2.2,
            marketStatus := market_status })

/-- One (connection, symbol) iteration of `update_rates_cache`, with the
per-symbol `except Exception` applied: an exception is logged and the
loop moves on. -/
def process_symbol (env : Env) (st : Caches) (symbol : PySym) :
    Caches × Option MarketData :=
  match process_symbol_body env st symbol with
  | .ok r => r
  | .error _ => (st, none)

/-- The nested loops of `update_rates_cache`, flattened to the sequence of
(connection id, symbol) pairs they visit, threading the caches and
collecting the emitted `market-data` events with their destination
rooms. -/
def run_pairs (env : Env) :
    Caches → List (String × PySym) → Caches × List (String × MarketData)
  | st, [] => (st, [])
  | st, (sid, symbol) :: rest =>
    let r := process_symbol env st symbol
    let rec_ := run_pairs env r.1 rest
    (rec_.1,
     (match r.2 with | none => [] | some d => [(sid, d)]) ++ rec_.2)

/-- `for sid, symbols in client_sessions.items(): for symbol in symbols`
— the pairs a tick visits, given the point-in-time enumeration of
`client_sessions`. -/
def flatten_sessions (sessions : List (String × List PySym)) :
    List (String × PySym) :=
  sessions.flatMap (fun p => p.2.map (fun s => (p.1, s)))

/-- `update_rates_cache()` from app.py, over a point-in-time enumeration
of `client_sessions`: bail out when the session guard fails, else iterate
all (connection, symbol) pairs. -/
def update_rates_cache (env : Env) (st : Caches)
    (sessions : List (String × List PySym)) :
    Caches × List (String × MarketData) :=
  if env.mt5_ready then run_pairs env st (flatten_sessions sessions)
  else (st, [])

/-- `client_sessions = defaultdict(set)`: the subscription registry,
modelled as connection id -> optional symbol set (`none` = no entry in
the dict). -/
abbrev Registry : Type := String → Option (Finset PySym)

/-- `SERVER_SECRET_KEY` from app.py. -/
def SERVER_SECRET_KEY : String := "aurify@123"

/-- `handle_connect()`: compare `request.args.get('secret')` (an optional
string) to the shared secret.  On mismatch an error event is emitted and
the handler returns `False` (connection refused); on success a
`connected` event is emitted.  Neither branch touches `client_sessions`.
Result: (registry after the handler, whether the connection was
accepted). -/
def handle_connect (reg : Registry) (secret : Option String) :
    Registry × Bool :=
  if secret ≠ some SERVER_SECRET_KEY then (reg, false) else (reg, true)

/-- `handle_request_data(symbols)`: normalize the requested symbols and
`client_sessions[request.sid].update(...)` — the `defaultdict` access
creates an empty entry when absent, then unions in the new symbols.
(The `isinstance` wrapping of a single value into a list happens before
this point; the argument here is the resulting list.) -/
def handle_request_data (reg : Registry) (sid : String)
    (symbols : List PySym) : Registry :=
  let normalized : Finset PySym := (symbols.map normalize_symbol).toFinset
  fun c => if c = sid then some ((reg sid).getD ∅ ∪ normalized) else reg c

/-- `handle_stop_data(symbols)`: normalize and
`client_sessions[request.sid].difference_update(...)` (again through the
`defaultdict` access). -/
def handle_stop_data (reg : Registry) (sid : String)
    (symbols : List PySym) : Registry :=
  let normalized : Finset PySym := (symbols.map normalize_symbol).toFinset
  fun c => if c = sid then some ((reg sid).getD ∅ \ normalized) else reg c

/-- `handle_disconnect()`: `client_sessions.pop(request.sid, None)` —
delete the entry when present, no-op otherwise (`pop` with a default
never inserts). -/
def handle_disconnect (reg : Registry) (sid : String) : Registry :=
  fun c => if c = sid then none else reg c

/-! Concrete feed environments and cache states used to evaluate the
model on closed inputs. -/

/-- A healthy feed: session up, every symbol selectable, trade mode
"full trading", live bid 7, today's bar (high 5, low 3, close 4),
previous day's bar (high 9, low 2, close 8). -/
def envA : Env :=
  { mt5_ready := true
    symbol_select := fun _ => .ok true
    symbol_info := fun _ => .ok (some ⟨TradeMode.full⟩)
    symbol_info_tick := fun _ => .ok (some ⟨7⟩)
    copy_rates_range_today := fun _ => .ok (some [⟨5, 3, 4⟩])
    copy_rates_from_prev := fun _ => .ok (some [⟨9, 2, 8⟩])
    now_str := "2025-01-06 09:00:00" }

/-- Same feed but the trade mode reports "disabled" (market closed). -/
def envClosedA : Env :=
  { envA with symbol_info := fun _ => .ok (some ⟨TradeMode.disabled⟩) }

/-- Same feed but an unrecognized trade mode (close-only), live bid 9. -/
def envUnknownA : Env :=
  { envA with
    symbol_info := fun _ => .ok (some ⟨TradeMode.closeonly⟩)
    symbol_info_tick := fun _ => .ok (some ⟨9⟩) }

/-- Healthy feed except that `symbol_select` raises on XAGUSD. -/
def envBadSelect : Env :=
  { envA with
    symbol_select := fun s => if s = pystr "XAGUSD" then .error () else .ok true }

/-- Feed whose session guard failed. -/
def envOff : Env := { envA with mt5_ready := false }

/-- Both caches empty. -/
def caches0 : Caches := ⟨fun _ => none, fun _ => none⟩

/-- A `LastClosingSnapshot` recorded for XAUUSD (close 3, high 9, low 1). -/
def cachesLastXAU : Caches :=
  ⟨fun _ => none,
   fun s => if s = pystr "XAUUSD" then some ⟨3, 9, 1, "2025-01-03 23:59:59"⟩
            else none⟩

/-- A `DailyExtremes` entry cached for XAUUSD (high 1, low 2), freshly
written on the current calendar date. -/
def cachesHLXAU : Caches :=
  ⟨fun s => if s = pystr "XAUUSD" then some ⟨1, 2⟩ else none,
   fun _ => none⟩

/-- The empty subscription registry. -/
def reg0 : Registry := fun _ => none

/-! Helper lemmas. -/

/-- Uppercasing swallows a prior lowercasing (ASCII). -/
theorem py_upper_code_lower_code (n : Nat) :
    py_upper_code (py_lower_code n) = py_upper_code n := by
  unfold py_upper_code py_lower_code
  split_ifs <;> omega

/-- Uppercasing is idempotent (ASCII). -/
theorem py_upper_code_idem (n : Nat) :
    py_upper_code (py_upper_code n) = py_upper_code n := by
  unfold py_upper_code
  split_ifs <;> omega

/-- `upper (title s) = upper s`: title-casing only flips letter case,
which uppercasing erases. -/
theorem py_upper_py_title_aux (l : List Nat) :
    ∀ b, py_upper (py_title_aux b l) = py_upper l := by
  induction l with
  | nil => intro b; rfl
  | cons c cs ih =>
    intro b
    simp only [py_title_aux, py_upper, List.map_cons]
    have htail := ih (is_ascii_alpha c)
    simp only [py_upper] at htail
    rw [htail]
    by_cases ha : is_ascii_alpha c
    · by_cases hb : b
      · simp [ha, hb, py_upper_code_lower_code]
      · simp [ha, hb, py_upper_code_idem]
    · simp [ha]

/-- `upper (title s) = upper s` on symbols. -/
theorem py_upper_py_title (s : PySym) : py_upper (py_title s) = py_upper s :=
  py_upper_py_title_aux s false

/-- The keys of `REVERSE_SYMBOL_MAP` are exactly the three canonical
codes. -/
theorem reverse_lookup_mem (s : PySym)
    (h : (REVERSE_SYMBOL_MAP.lookup s).isSome = true) :
    s = pystr "XAUUSD" ∨ s = pystr "XAGUSD" ∨ s = pystr "XPTUSD" := by
  by_cases h1 : (s == pystr "XAUUSD") = true
  · exact Or.inl (eq_of_beq h1)
  by_cases h2 : (s == pystr "XAGUSD") = true
  · exact Or.inr (Or.inl (eq_of_beq h2))
  by_cases h3 : (s == pystr "XPTUSD") = true
  · exact Or.inr (Or.inr (eq_of_beq h3))
  · exfalso
    simp only [REVERSE_SYMBOL_MAP, SYMBOL_MAP, List.map_cons, List.map_nil,
      List.lookup] at h
    rw [Bool.not_eq_true] at h1 h2 h3
    simp [h1, h2, h3] at h

/-- C9: normalization is a left-inverse of the display mapping: for every
canonical symbol in the reverse map, and for every uppercase symbol that
is not an alias (the pass-through canonical codes),
`normalize(displayName(s)) = s`. -/
theorem normalize_left_inverse_of_display (s : PySym)
    (h : (REVERSE_SYMBOL_MAP.lookup s).isSome = true ∨
         (py_upper s = s ∧ SYMBOL_MAP.lookup s = none)) :
    normalize_symbol (display_name s) = s := by
  rcases h with h | ⟨hu, hn⟩
  · rcases reverse_lookup_mem s h with rfl | rfl | rfl <;> decide
  · cases hr : REVERSE_SYMBOL_MAP.lookup s with
    | some a =>
      rcases reverse_lookup_mem s (by rw [hr]; rfl) with rfl | rfl | rfl <;>
        decide
    | none =>
      simp only [display_name, hr, Option.getD_none]
      simp only [normalize_symbol, py_upper_py_title, hu, hn, Option.getD_none]

/-- Witness for C9: the round trip at a mapped code (XAUUSD) and at a
pass-through code (EURUSD). -/
theorem normalize_left_inverse_of_display_witness :
    normalize_symbol (display_name (pystr "XAUUSD")) = pystr "XAUUSD" ∧
    normalize_symbol (display_name (pystr "EURUSD")) = pystr "EURUSD" :=
  ⟨normalize_left_inverse_of_display _ (Or.inl (by decide)),
   normalize_left_inverse_of_display _ (Or.inr (by decide))⟩

/-- C6: `get_high_low` never raises past its boundary and returns
`(None, None)` exactly when the feed failed: the bar fetch raised, or
returned `None`, or returned an empty bar array. -/
theorem get_high_low_error_yields_none_iff (env : Env) (st : Caches)
    (s : PySym) :
    (get_high_low env st s).2 = (none, none) ↔
      (env.copy_rates_range_today s = .error () ∨
       env.copy_rates_range_today s = .ok none ∨
       env.copy_rates_range_today s = .ok (some [])) := by
  unfold get_high_low
  cases h : env.copy_rates_range_today s with
  | error e => cases e; simp [h]
  | ok o =>
    cases o with
    | none => simp [h]
    | some l =>
      cases l with
      | nil => simp [h]
      | cons r rs => simp [h]

/-- C4: the market-session classifier is a function of the feed's
trading-mode flag — OPEN exactly for "full trading", CLOSED exactly for
"disabled", and UNKNOWN when the session guard failed, the symbol
metadata is unresolvable, or the flag is any other value. -/
theorem get_market_status_characterization (env : Env) (s : PySym) :
    (get_market_status env s = .ok "open" ↔
       env.mt5_ready = true ∧
       ∃ i, env.symbol_info s = .ok (some i) ∧
         i.trade_mode = TradeMode.full) ∧
    (get_market_status env s = .ok "closed" ↔
       env.mt5_ready = true ∧
       ∃ i, env.symbol_info s = .ok (some i) ∧
         i.trade_mode = TradeMode.disabled) ∧
    ((env.mt5_ready = false ∨ env.symbol_info s = .ok none ∨
       (∃ i, env.symbol_info s = .ok (some i) ∧
          i.trade_mode ≠ TradeMode.full ∧
          i.trade_mode ≠ TradeMode.disabled)) →
       get_market_status env s = .ok "unknown") := by
  unfold get_market_status
  by_cases hr : env.mt5_ready
  · cases hsi : env.symbol_info s with
    | error e => simp [hr, hsi]
    | ok o =>
      cases o with
      | none => simp [hr, hsi]
      | some info => cases hm : info.trade_mode <;> simp [hr, hsi, hm]
  · rw [Bool.not_eq_true] at hr
    simp [hr]

/-- Witness for C4: on the concrete environments the classifier reports
"open" for full trading, "closed" for disabled, and "unknown" for a
close-only flag and for a failed session guard. -/
theorem get_market_status_characterization_witness :
    get_market_status envA (pystr "XAUUSD") = .ok "open" ∧
    get_market_status envClosedA (pystr "XAUUSD") = .ok "closed" ∧
    get_market_status envUnknownA (pystr "XAUUSD") = .ok "unknown" ∧
    get_market_status envOff (pystr "XAUUSD") = .ok "unknown" :=
  ⟨(get_market_status_characterization envA (pystr "XAUUSD")).1.mpr
      ⟨by decide, ⟨TradeMode.full⟩, rfl, rfl⟩,
   (get_market_status_characterization envClosedA (pystr "XAUUSD")).2.1.mpr
      ⟨by decide, ⟨TradeMode.disabled⟩, rfl, rfl⟩,
   (get_market_status_characterization envUnknownA (pystr "XAUUSD")).2.2
      (Or.inr (Or.inr ⟨⟨TradeMode.closeonly⟩, rfl, by decide, by decide⟩)),
   (get_market_status_characterization envOff (pystr "XAUUSD")).2.2
      (Or.inl rfl)⟩

/-- C7: subscribe and unsubscribe are idempotent on the registry —
subscribing the same list twice equals subscribing it once, subscribe
creates the connection's entry, and unsubscribing a symbol not in the
set leaves the set unchanged. -/
theorem subscription_registry_idempotent (reg : Registry) (sid : String)
    (symbols : List PySym) :
    (handle_request_data (handle_request_data reg sid symbols) sid symbols =
       handle_request_data reg sid symbols) ∧
    ((handle_request_data reg sid symbols) sid).isSome = true ∧
    (∀ x : PySym, normalize_symbol x ∉ (reg sid).getD ∅ →
       ((handle_stop_data reg sid [x]) sid).getD ∅ = (reg sid).getD ∅) := by
  refine ⟨?_, ?_, ?_⟩
  · funext c
    simp only [handle_request_data]
    by_cases hc : c = sid
    · simp [hc, Finset.union_assoc, Finset.union_self]
    · simp [hc]
  · simp [handle_request_data]
  · intro x hx
    simp only [handle_stop_data, if_pos rfl, List.map_cons, List.map_nil,
      List.toFinset_cons, List.toFinset_nil, Option.getD_some]
    rw [insert_emptyc_eq, Finset.sdiff_singleton_eq_erase]
    exact Finset.erase_eq_of_not_mem hx

/-- Witness for C7 at a concrete registry: subscribing GOLD twice on the
empty registry, entry creation, and removing an unsubscribed symbol. -/
theorem subscription_registry_idempotent_witness :
    (handle_request_data (handle_request_data reg0 "c1" [pystr "GOLD"]) "c1"
        [pystr "GOLD"] =
       handle_request_data reg0 "c1" [pystr "GOLD"]) ∧
    ((handle_request_data reg0 "c1" [pystr "GOLD"]) "c1").isSome = true ∧
    ((handle_stop_data reg0 "c1" [pystr "SILVER"]) "c1").getD ∅ =
       (reg0 "c1").getD ∅ :=
  ⟨(subscription_registry_idempotent reg0 "c1" [pystr "GOLD"]).1,
   (subscription_registry_idempotent reg0 "c1" [pystr "GOLD"]).2.1,
   (subscription_registry_idempotent reg0 "c1" [pystr "GOLD"]).2.2
      (pystr "SILVER") (by decide)⟩

/-- C8: a connection rejected for a wrong shared secret leaves the
registry without an entry for that id, a subsequent drop of that id is a
no-op, and dropping any unknown id leaves the registry unchanged. -/
theorem reject_creates_no_entry_and_drop_noop (reg : Registry)
    (secret : Option String) (sid : String)
    (hsec : secret ≠ some SERVER_SECRET_KEY) (hsid : reg sid = none) :
    (handle_connect reg secret).1 = reg ∧
    (handle_connect reg secret).2 = false ∧
    handle_disconnect (handle_connect reg secret).1 sid = reg ∧
    (∀ reg' : Registry, ∀ sid' : String, reg' sid' = none →
       handle_disconnect reg' sid' = reg') := by
  have hdrop : ∀ reg' : Registry, ∀ sid' : String, reg' sid' = none →
      handle_disconnect reg' sid' = reg' := by
    intro reg' sid' h
    funext c
    simp only [handle_disconnect]
    by_cases hc : c = sid'
    · rw [if_pos hc, hc, h]
    · rw [if_neg hc]
  refine ⟨?_, ?_, ?_, hdrop⟩
  · simp [handle_connect, hsec]
  · simp [handle_connect, hsec]
  · simp only [handle_connect, if_pos hsec]
    exact hdrop reg sid hsid

/-- Witness for C8: rejecting secret "wrong" on the empty registry and
then dropping the never-registered id "c1". -/
theorem reject_creates_no_entry_and_drop_noop_witness :
    (handle_connect reg0 (some "wrong")).1 = reg0 ∧
    (handle_connect reg0 (some "wrong")).2 = false ∧
    handle_disconnect (handle_connect reg0 (some "wrong")).1 "c1" = reg0 ∧
    (∀ reg' : Registry, ∀ sid' : String, reg' sid' = none →
       handle_disconnect reg' sid' = reg') :=
  reject_creates_no_entry_and_drop_noop reg0 (some "wrong") "c1"
    (by decide) rfl

/-- The pair returned by `get_high_low` depends only on the feed, never
on the incoming cache state. -/
theorem get_high_low_snd_eq (env : Env) (st st' : Caches) (s : PySym) :
    (get_high_low env st s).2 = (get_high_low env st' s).2 := by
  unfold get_high_low
  cases env.copy_rates_range_today s with
  | error e => rfl
  | ok o =>
    cases o with
    | none => rfl
    | some l => cases l with | nil => rfl | cons r rs => rfl

/-- `get_high_low` writes only `high_low_cache`, never the last-closing
snapshots. -/
theorem get_high_low_keeps_last (env : Env) (st : Caches) (s : PySym) :
    (get_high_low env st s).1.last_market_update_cache =
      st.last_market_update_cache := by
  unfold get_high_low
  cases env.copy_rates_range_today s with
  | error e => rfl
  | ok o =>
    cases o with
    | none => rfl
    | some l => cases l with | nil => rfl | cons r rs => rfl

/-- A (connection, symbol) iteration either emits nothing and leaves the
caches untouched, or emits a payload. -/
theorem get_market_status_shape (env : Env) (s : PySym) :
    (∃ e, get_market_status env s = .error e) ∨
    get_market_status env s = .ok "open" ∨
    get_market_status env s = .ok "closed" ∨
    get_market_status env s = .ok "unknown" := by
  unfold get_market_status
  by_cases hr : env.mt5_ready = false
  · rw [if_pos hr]
    exact Or.inr (Or.inr (Or.inr rfl))
  · rw [if_neg hr]
    cases env.symbol_info s with
    | error e => exact Or.inl ⟨e, rfl⟩
    | ok o =>
      cases o with
      | none => exact Or.inr (Or.inr (Or.inr rfl))
      | some info =>
        obtain ⟨tm⟩ := info
        cases tm with
        | full => exact Or.inr (Or.inl rfl)
        | disabled => exact Or.inr (Or.inr (Or.inl rfl))
        | closeonly => exact Or.inr (Or.inr (Or.inr rfl))
        | longonly => exact Or.inr (Or.inr (Or.inr rfl))
        | shortonly => exact Or.inr (Or.inr (Or.inr rfl))

/-- An iteration that emits nothing (skip, feed failure or exception)
leaves the caches exactly as they were. -/
theorem process_symbol_skip_keeps_state (env : Env) (st : Caches)
    (s : PySym) (h : (process_symbol env st s).2 = none) :
    process_symbol env st s = (st, none) := by
  cases hsel : env.symbol_select (normalize_symbol s) with
  | error e =>
    unfold process_symbol process_symbol_body
    rw [hsel]
  | ok b =>
    cases b with
    | false =>
      unfold process_symbol process_symbol_body
      rw [hsel]
    | true =>
      have hlive : ∀ ms : String, ms = "open" ∨ ms = "unknown" →
          get_market_status env (normalize_symbol s) = .ok ms →
          process_symbol env st s = (st, none) := by
        intro ms hms hgms
        cases htick : env.symbol_info_tick (normalize_symbol s) with
        | error e =>
          unfold process_symbol process_symbol_body
          rcases hms with rfl | rfl <;> rw [hsel, hgms, htick] <;> rfl
        | ok t =>
          cases t with
          | none =>
            unfold process_symbol process_symbol_body
            rcases hms with rfl | rfl <;> rw [hsel, hgms, htick] <;> rfl
          | some tick =>
            exfalso
            unfold process_symbol process_symbol_body at h
            rcases hms with rfl | rfl <;> rw [hsel, hgms, htick] at h <;>
              simp at h
      rcases get_market_status_shape env (normalize_symbol s) with
        ⟨e, hgms⟩ | hgms | hgms | hgms
      · unfold process_symbol process_symbol_body
        rw [hsel, hgms]
      · exact hlive "open" (Or.inl rfl) hgms
      · cases hst : (match st.last_market_update_cache (normalize_symbol s) with
                     | none => store_last_closing_values env st (normalize_symbol s)
                     | some _ => Except.ok st) with
        | error e =>
          unfold process_symbol process_symbol_body
          rw [hsel, hgms, hst]
          rfl
        | ok st1 =>
          exfalso
          unfold process_symbol process_symbol_body at h
          rw [hsel, hgms, hst] at h
          simp at h
      · exact hlive "unknown" (Or.inr rfl) hgms

/-- Splitting the iteration of a tick into two runs. -/
theorem run_pairs_append (env : Env) (st : Caches)
    (l1 l2 : List (String × PySym)) :
    run_pairs env st (l1 ++ l2) =
      ((run_pairs env (run_pairs env st l1).1 l2).1,
       (run_pairs env st l1).2 ++
         (run_pairs env (run_pairs env st l1).1 l2).2) := by
  induction l1 generalizing st with
  | nil => simp [run_pairs]
  | cons p l1 ih =>
    obtain ⟨sid, symbol⟩ := p
    simp only [List.cons_append, run_pairs, List.append_eq]
    rw [ih]
    simp [List.append_assoc]

/-- C5: a (connection, symbol) pair whose processing fails (skip, feed
failure or caught exception, i.e. no payload results) does not abort the
tick: the run over all pairs equals the run with that pair removed, so
every other pair is still processed against the same cache states and
receives exactly the same emissions. -/
theorem per_symbol_failure_does_not_abort_tick (env : Env) (st : Caches)
    (pre : List (String × PySym)) (sid : String) (symbol : PySym)
    (post : List (String × PySym))
    (h : (process_symbol env (run_pairs env st pre).1 symbol).2 = none) :
    run_pairs env st (pre ++ (sid, symbol) :: post) =
      run_pairs env st (pre ++ post) := by
  have hskip :=
    process_symbol_skip_keeps_state env (run_pairs env st pre).1 symbol h
  rw [run_pairs_append, run_pairs_append]
  have hcons : run_pairs env (run_pairs env st pre).1 ((sid, symbol) :: post) =
      run_pairs env (run_pairs env st pre).1 post := by
    simp only [run_pairs]
    rw [hskip]
    rfl
  rw [hcons]

/-- Witness for C5: with a feed that raises on selecting XAGUSD, the tick
over GOLD, SILVER, PLATINUM equals the tick over GOLD, PLATINUM. -/
theorem per_symbol_failure_does_not_abort_tick_witness :
    run_pairs envBadSelect caches0
        ([("c1", pystr "GOLD")] ++
          ("c1", pystr "SILVER") :: [("c1", pystr "PLATINUM")]) =
      run_pairs envBadSelect caches0
        ([("c1", pystr "GOLD")] ++ [("c1", pystr "PLATINUM")]) :=
  per_symbol_failure_does_not_abort_tick envBadSelect caches0
    [("c1", pystr "GOLD")] "c1" (pystr "SILVER") [("c1", pystr "PLATINUM")]
    (by decide)

/-- C2: for a symbol classified CLOSED whose `LastClosingSnapshot` entry
exists (it exists whenever one was ever recorded, since entries are only
ever overwritten), the emitted payload has bid = the stored close and
high/low = the stored high/low, and the caches are untouched. -/
theorem closed_market_bid_eq_last_close (env : Env) (st : Caches)
    (symbol : PySym) (d : LastClose)
    (hsel : env.symbol_select (normalize_symbol symbol) = .ok true)
    (hms : get_market_status env (normalize_symbol symbol) = .ok "closed")
    (hcache : st.last_market_update_cache (normalize_symbol symbol) = some d) :
    process_symbol env st symbol =
      (st, some {
        symbol := py_title ((REVERSE_SYMBOL_MAP.lookup
          (normalize_symbol symbol)).getD symbol),
        bid := d.close, high := d.high, low := d.low,
        marketStatus := "closed" }) := by
  unfold process_symbol process_symbol_body
  rw [hsel, hms]
  simp [hcache]

/-- Witness for C2: with the market closed and a snapshot
(close 3, high 9, low 1) recorded for XAUUSD, the GOLD payload carries
exactly those values. -/
theorem closed_market_bid_eq_last_close_witness :
    process_symbol envClosedA cachesLastXAU (pystr "GOLD") =
      (cachesLastXAU, some {
        symbol := py_title ((REVERSE_SYMBOL_MAP.lookup
          (normalize_symbol (pystr "GOLD"))).getD (pystr "GOLD")),
        bid := 3, high := 9, low := 1,
        marketStatus := "closed" }) :=
  closed_market_bid_eq_last_close envClosedA cachesLastXAU (pystr "GOLD")
    ⟨3, 9, 1, "2025-01-03 23:59:59"⟩ rfl rfl (by decide)

/-- C10: a symbol whose status resolves to UNKNOWN takes the live-data
path — a missing tick skips the symbol; a live tick yields a payload
with the live bid and marketStatus "unknown"; and the last-closing
snapshots are neither written nor read. -/
theorem unknown_status_takes_live_path (env : Env) (st : Caches)
    (symbol : PySym) (t : Tick)
    (hsel : env.symbol_select (normalize_symbol symbol) = .ok true)
    (hms : get_market_status env (normalize_symbol symbol) = .ok "unknown") :
    (env.symbol_info_tick (normalize_symbol symbol) = .ok none →
       process_symbol env st symbol = (st, none)) ∧
    (env.symbol_info_tick (normalize_symbol symbol) = .ok (some t) →
       (process_symbol env st symbol).2 = some {
         symbol := py_title ((REVERSE_SYMBOL_MAP.lookup
           (normalize_symbol symbol)).getD symbol),
         bid := t.bid,
         high := py_or_zero (get_high_low env st (normalize_symbol symbol)).2.1,
         low := py_or_zero (get_high_low env st (normalize_symbol symbol)).2.2,
         marketStatus := "unknown" }) ∧
    ((process_symbol env st symbol).1.last_market_update_cache =
       st.last_market_update_cache) ∧
    (∀ f, (process_symbol env
            { st with last_market_update_cache := f } symbol).2 =
          (process_symbol env st symbol).2) := by
  refine ⟨?_, ?_, ?_, ?_⟩
  · intro htick
    unfold process_symbol process_symbol_body
    rw [hsel, hms, htick]
    rfl
  · intro htick
    unfold process_symbol process_symbol_body
    rw [hsel, hms, htick]
    rfl
  · cases htick : env.symbol_info_tick (normalize_symbol symbol) with
    | error e =>
      unfold process_symbol process_symbol_body
      rw [hsel, hms, htick]
      rfl
    | ok o =>
      cases o with
      | none =>
        unfold process_symbol process_symbol_body
        rw [hsel, hms, htick]
        rfl
      | some tick =>
        unfold process_symbol process_symbol_body
        rw [hsel, hms, htick]
        exact get_high_low_keeps_last env st (normalize_symbol symbol)
  · intro f
    cases htick : env.symbol_info_tick (normalize_symbol symbol) with
    | error e =>
      unfold process_symbol process_symbol_body
      rw [hsel, hms, htick]
      rfl
    | ok o =>
      cases o with
      | none =>
        unfold process_symbol process_symbol_body
        rw [hsel, hms, htick]
        rfl
      | some tick =>
        unfold process_symbol process_symbol_body
        rw [hsel, hms, htick,
          get_high_low_snd_eq env { st with last_market_update_cache := f }
            st (normalize_symbol symbol)]
        rfl

/-- Witness for C10: a close-only trade mode classifies as "unknown" and
the live tick bid 9 is emitted with marketStatus "unknown". -/
theorem unknown_status_takes_live_path_witness :
    (process_symbol envUnknownA caches0 (pystr "GOLD")).2 = some {
      symbol := py_title ((REVERSE_SYMBOL_MAP.lookup
        (normalize_symbol (pystr "GOLD"))).getD (pystr "GOLD")),
      bid := 9,
      high := py_or_zero
        (get_high_low envUnknownA caches0 (normalize_symbol (pystr "GOLD"))).2.1,
      low := py_or_zero
        (get_high_low envUnknownA caches0 (normalize_symbol (pystr "GOLD"))).2.2,
      marketStatus := "unknown" } :=
  (unknown_status_takes_live_path envUnknownA caches0 (pystr "GOLD") ⟨9⟩
      rfl rfl).2.1 rfl

/-- Counterexample for C1: `high_low_cache` holds a freshly written
(high 1, low 2) entry for XAUUSD — the strongest available sense of
"fresh", since the stored `DailyExtremes` record carries no date at all —
yet `get_high_low` does not return it: it fetches today's bar range and
returns the feed's (5, 3). -/
theorem get_high_low_ignores_cached_entry_cex :
    cachesHLXAU.high_low_cache (pystr "XAUUSD") = some ⟨1, 2⟩ ∧
    (get_high_low envA cachesHLXAU (pystr "XAUUSD")).2 = (some 5, some 3) ∧
    ¬ (get_high_low envA cachesHLXAU (pystr "XAUUSD")).2 =
        (some 1, some 2) :=
  ⟨by decide, by decide, by decide⟩

/-- C1 (amended): `get_high_low` never consults the cached entry — its
result is the same from any cache state — and it always fetches the
day's bar range, extracting high/low from the first bar, storing them,
and returning them. -/
theorem get_high_low_always_fetches (env : Env) (st st' : Caches)
    (s : PySym) :
    (get_high_low env st s).2 = (get_high_low env st' s).2 ∧
    (∀ r rs, env.copy_rates_range_today s = .ok (some (r :: rs)) →
       (get_high_low env st s).2 = (some r.high, some r.low) ∧
       (get_high_low env st s).1.high_low_cache s = some ⟨r.high, r.low⟩) := by
  refine ⟨get_high_low_snd_eq env st st' s, ?_⟩
  intro r rs h
  unfold get_high_low
  rw [h]
  exact ⟨rfl, by simp⟩

/-- Witness for C1 (amended): on the healthy feed the fetch from an empty
cache and from a populated cache agree, and the fetched (5, 3) is stored
and returned. -/
theorem get_high_low_always_fetches_witness :
    (get_high_low envA caches0 (pystr "XAUUSD")).2 =
      (get_high_low envA cachesHLXAU (pystr "XAUUSD")).2 ∧
    (get_high_low envA caches0 (pystr "XAUUSD")).2 = (some 5, some 3) ∧
    (get_high_low envA caches0 (pystr "XAUUSD")).1.high_low_cache
        (pystr "XAUUSD") = some ⟨5, 3⟩ :=
  ⟨(get_high_low_always_fetches envA caches0 cachesHLXAU (pystr "XAUUSD")).1,
   ((get_high_low_always_fetches envA caches0 cachesHLXAU
       (pystr "XAUUSD")).2 ⟨5, 3, 4⟩ [] rfl).1,
   ((get_high_low_always_fetches envA caches0 cachesHLXAU
       (pystr "XAUUSD")).2 ⟨5, 3, 4⟩ [] rfl).2⟩

/-- Counterexample for C3: the market is open, the live observation
succeeds (bid 7 is emitted with marketStatus "open"), yet the
`LastClosingSnapshot` for XAUUSD is not overwritten with the new
observation — it still holds the old (close 3, high 9, low 1). -/
theorem live_observation_does_not_write_snapshot_cex :
    (process_symbol envA cachesLastXAU (pystr "GOLD")).2.map
        MarketData.bid = some 7 ∧
    (process_symbol envA cachesLastXAU (pystr "GOLD")).2.map
        MarketData.marketStatus = some "open" ∧
    (process_symbol envA cachesLastXAU (pystr "GOLD")).1.last_market_update_cache
        (pystr "XAUUSD") = some ⟨3, 9, 1, "2025-01-03 23:59:59"⟩ :=
  ⟨by decide, by decide, by decide⟩

/-- C3 (amended): a successful live observation never writes the
`LastClosingSnapshot` — on every path whose status is not CLOSED the
snapshot store is left untouched, and it is not read either (the emitted
payload is the same under any snapshot store).  It is written only on
the CLOSED path when the entry is absent. -/
theorem last_closing_snapshot_untouched_when_not_closed (env : Env)
    (st : Caches) (symbol : PySym)
    (h : get_market_status env (normalize_symbol symbol) ≠ .ok "closed") :
    (process_symbol env st symbol).1.last_market_update_cache =
      st.last_market_update_cache ∧
    (∀ f, (process_symbol env
            { st with last_market_update_cache := f } symbol).2 =
          (process_symbol env st symbol).2) := by
  refine ⟨?_, ?_⟩
  · cases hsel : env.symbol_select (normalize_symbol symbol) with
    | error e =>
      unfold process_symbol process_symbol_body
      rw [hsel]
    | ok b =>
      cases b with
      | false =>
        unfold process_symbol process_symbol_body
        rw [hsel]
      | true =>
        have hlive : ∀ ms : String, ms = "open" ∨ ms = "unknown" →
            get_market_status env (normalize_symbol symbol) = .ok ms →
            (process_symbol env st symbol).1.last_market_update_cache =
              st.last_market_update_cache := by
          intro ms hms hgms
          cases htick : env.symbol_info_tick (normalize_symbol symbol) with
          | error e =>
            unfold process_symbol process_symbol_body
            rcases hms with rfl | rfl <;> rw [hsel, hgms, htick] <;> rfl
          | ok o =>
            cases o with
            | none =>
              unfold process_symbol process_symbol_body
              rcases hms with rfl | rfl <;> rw [hsel, hgms, htick] <;> rfl
            | some tick =>
              unfold process_symbol process_symbol_body
              rcases hms with rfl | rfl <;> rw [hsel, hgms, htick] <;>
                exact get_high_low_keeps_last env st (normalize_symbol symbol)
        rcases get_market_status_shape env (normalize_symbol symbol) with
          ⟨e, hgms⟩ | hgms | hgms | hgms
        · unfold process_symbol process_symbol_body
          rw [hsel, hgms]
        · exact hlive "open" (Or.inl rfl) hgms
        · exact absurd hgms h
        · exact hlive "unknown" (Or.inr rfl) hgms
  · intro f
    cases hsel : env.symbol_select (normalize_symbol symbol) with
    | error e =>
      unfold process_symbol process_symbol_body
      rw [hsel]
    | ok b =>
      cases b with
      | false =>
        unfold process_symbol process_symbol_body
        rw [hsel]
      | true =>
        have hlive : ∀ ms : String, ms = "open" ∨ ms = "unknown" →
            get_market_status env (normalize_symbol symbol) = .ok ms →
            (process_symbol env
                { st with last_market_update_cache := f } symbol).2 =
              (process_symbol env st symbol).2 := by
          intro ms hms hgms
          cases htick : env.symbol_info_tick (normalize_symbol symbol) with
          | error e =>
            unfold process_symbol process_symbol_body
            rcases hms with rfl | rfl <;> rw [hsel, hgms, htick] <;> rfl
          | ok o =>
            cases o with
            | none =>
              unfold process_symbol process_symbol_body
              rcases hms with rfl | rfl <;> rw [hsel, hgms, htick] <;> rfl
            | some tick =>
              unfold process_symbol process_symbol_body
              rcases hms with rfl | rfl <;>
                rw [hsel, hgms, htick,
                  get_high_low_snd_eq env
                    { st with last_market_update_cache := f } st
                    (normalize_symbol symbol)] <;> rfl
        rcases get_market_status_shape env (normalize_symbol symbol) with
          ⟨e, hgms⟩ | hgms | hgms | hgms
        · unfold process_symbol process_symbol_body
          rw [hsel, hgms]
        · exact hlive "open" (Or.inl rfl) hgms
        · exact absurd hgms h
        · exact hlive "unknown" (Or.inr rfl) hgms

/-- Witness for C3 (amended): with the market open, processing GOLD
leaves the recorded XAUUSD snapshot untouched, and the emitted payload
does not depend on the snapshot store. -/
theorem last_closing_snapshot_untouched_when_not_closed_witness :
    (process_symbol envA cachesLastXAU (pystr "GOLD")).1.last_market_update_cache =
      cachesLastXAU.last_market_update_cache ∧
    (∀ f, (process_symbol envA
            { cachesLastXAU with last_market_update_cache := f }
            (pystr "GOLD")).2 =
          (process_symbol envA cachesLastXAU (pystr "GOLD")).2) :=
  last_closing_snapshot_untouched_when_not_closed envA cachesLastXAU
    (pystr "GOLD")
    (fun hc => by
      rw [show get_market_status envA (normalize_symbol (pystr "GOLD")) =
            Except.ok "open" from rfl] at hc
      exact absurd (Except.ok.inj hc) (by decide))
